import Mathlib

/-!
Shallow embedding of `KuduTableAlterer::Data::ToRequest`
(src/kudu/client/table_alterer-internal.{h,cc}): the finalize step that
turns an accumulated table-alteration spec into an `AlterTableRequestPB`
wire message, together with theorems about its validation rules, the
RenameColumn backward-compatibility degrade, range-bound tag encoding,
step ordering and field population.
-/

namespace KuduAlter

/-- Error statuses produced or propagated by `ToRequest`
(kudu::Status; only the distinctions the code makes are modelled:
code, message, and optional attached message such as a column name). -/
inductive StatusE where
  | invalidArgument (msg : String) (attachment : Option String)
  | notSupported (msg : String) (attachment : Option String)
  | otherError (msg : String)
deriving DecidableEq

/-- Outcome of `ToRequest`: success, an error `Status` return,
a `LOG(FATAL)` abort (unknown step type), or undefined behaviour
(dereference of a null pointer / empty `std::optional`).  The latter two
never return to the caller in C++, so they are distinguished from
ordinary failures. -/
inductive Outcome where
  | success
  | failure (e : StatusE)
  | fatalError (msg : String)
  | undefinedDeref (msg : String)
deriving DecidableEq

/-- `AlterTableRequestPB::StepType` (master.pb.h), the values used here. -/
inductive StepType where
  | ADD_COLUMN
  | DROP_COLUMN
  | RENAME_COLUMN
  | ALTER_COLUMN
  | ADD_RANGE_PARTITION
  | DROP_RANGE_PARTITION
  | UNKNOWN
deriving DecidableEq

/-- `KuduColumnSpec::Data` as read by `ToRequest`: column name plus the
optional requested changes.  Modelled from the spec: the struct itself
(schema-internal.h) is not part of this fragment; §3 ColumnAlterSpec
lists exactly these fields (name required; optional rename-to, default
value, remove-default, encoding, compression, block size, comment;
reserved type/nullable/primary-key change requests).  Field value types
are abstracted (enum/int payloads as numbers). -/
structure ColumnSpecData where
  name : String
  type : Option Nat
  nullable : Option Bool
  primary_key : Option Bool
  rename_to : Option String
  default_val : Option Int
  remove_default : Option Bool
  encoding : Option Nat
  compression : Option Nat
  block_size : Option Int
  comment : Option String
deriving DecidableEq

/-- A resolved column schema delta, as emitted under the AlterColumn tag. -/
structure ColumnSchemaDelta where
  name : String
  new_name : Option String
  default_value : Option Int
  remove_default : Option Bool
  encoding : Option Nat
  compression : Option Nat
  block_size : Option Int
  new_comment : Option String
deriving DecidableEq

/-- Modelled from the spec: the Column Delta Resolver (§4.3,
`KuduColumnSpec::ToColumnSchemaDelta`), a collaborator outside this
fragment.  It converts a column mutation spec into a column schema
delta carrying the requested fields; its failure on mutually
contradictory input is contract-only ("full algebra out of scope") and
is not modelled. -/
def toColumnSchemaDelta (cs : ColumnSpecData) : ColumnSchemaDelta :=
  { name := cs.name
    new_name := cs.rename_to
    default_value := cs.default_val
    remove_default := cs.remove_default
    encoding := cs.encoding
    compression := cs.compression
    block_size := cs.block_size
    new_comment := cs.comment }

/-- Modelled from the spec: the Column Delta Resolver for AddColumn
(§4.2, `KuduColumnSpec::ToColumnSchema` followed by `ColumnSchemaToPB`
without write-default), collaborators outside this fragment.  Only the
column name of the resulting encoded column schema is modelled. -/
def toColumnSchema (cs : ColumnSpecData) : String :=
  cs.name

/-- Modelled from the spec: the schema encoder collaborator
(`SchemaToPB` with ids, write-defaults and comments suppressed).
Schemas are abstract layout identifiers; encoding is modelled as the
identity on them. -/
def schemaToPB (s : Nat) : Nat :=
  s

/-- `KuduTableCreator::RangePartitionBound` (table_creator-internal.h,
outside this fragment; modelled from the spec §3: each bound tagged
inclusive or exclusive). -/
inductive BoundType where
  | INCLUSIVE_BOUND
  | EXCLUSIVE_BOUND
deriving DecidableEq

/-- `RowOperationsPB::Type` values used for range bounds. -/
inductive RowOpType where
  | RANGE_LOWER_BOUND
  | EXCLUSIVE_RANGE_LOWER_BOUND
  | RANGE_UPPER_BOUND
  | INCLUSIVE_RANGE_UPPER_BOUND
deriving DecidableEq

/-- A partition bound row (`KuduPartialRow`), abstracted to the layout
identifier of the schema it was built against plus its cell values. -/
structure PartialRow where
  schema_id : Nat
  cells : List Int
deriving DecidableEq

/-- One hash-schema dimension of a range partition (ordered column
names, bucket count, seed). -/
structure HashDimension where
  column_names : List String
  num_buckets : Nat
  seed : Nat
deriving DecidableEq

/-- Wire form of one hash-schema dimension. -/
structure HashDimensionPB where
  columns : List String
  num_buckets : Nat
  seed : Nat
deriving DecidableEq

/-- `KuduTableCreator::KuduRangePartition::Data` as read by `ToRequest`:
bound types, bound rows, and the optional custom hash schema.  Modelled
from the spec §3 RangePartitionBound (the struct lives in
table_creator-internal.h, outside this fragment). -/
structure RangePartitionData where
  lower_bound_type : BoundType
  upper_bound_type : BoundType
  lower_bound : PartialRow
  upper_bound : PartialRow
  hash_schema : List HashDimension
deriving DecidableEq

/-- Wire payload of an AddRangePartition step: the encoded bound
operations (the `RowOperationsPBEncoder` buffer, an ordered list of
tagged rows), the custom hash schema, and the optional dimension
label. -/
structure AddRangePartitionPB where
  range_bounds : List (RowOpType × PartialRow)
  custom_hash_schema : List HashDimensionPB
  dimension_label : Option String
deriving DecidableEq

/-- Wire payload of a DropRangePartition step: only the encoded bound
operations. -/
structure DropRangePartitionPB where
  range_bounds : List (RowOpType × PartialRow)
deriving DecidableEq

/-- One entry of the wire message step list (`AlterTableRequestPB::Step`):
a type tag plus at most one populated payload. -/
structure PBStep where
  type : StepType
  add_column : Option String
  drop_column : Option String
  rename_column : Option (String × String)
  alter_column : Option ColumnSchemaDelta
  add_range_partition : Option AddRangePartitionPB
  drop_range_partition : Option DropRangePartitionPB
deriving DecidableEq

/-- The `AlterTableRequestPB` wire message, the fields `ToRequest`
touches.  `Option` distinguishes presence from absence (proto optional
fields). -/
structure AlterTableRequestPB where
  table_name : Option String
  modify_external_catalogs : Option Bool
  new_table_name : Option String
  new_extra_configs : Option (List (String × String))
  new_table_owner : Option String
  new_table_comment : Option String
  num_replicas : Option Int
  schema : Option Nat
  disk_size_limit : Option Int
  row_count_limit : Option Int
  alter_schema_steps : List PBStep
deriving DecidableEq

/-- A cleared `AlterTableRequestPB` (the result of `req->Clear()`). -/
def emptyRequest : AlterTableRequestPB :=
  { table_name := none
    modify_external_catalogs := none
    new_table_name := none
    new_extra_configs := none
    new_table_owner := none
    new_table_comment := none
    num_replicas := none
    schema := none
    disk_size_limit := none
    row_count_limit := none
    alter_schema_steps := [] }

/-- `KuduTableAlterer::Data::Step` (table_alterer-internal.h): a step
type plus the payload pointers.  `spec` is only set for column steps and
`range_partition` only for range-partition steps; a missing payload
models a null pointer. -/
structure Step where
  step_type : StepType
  spec : Option ColumnSpecData
  range_partition : Option RangePartitionData
  dimension_label : Option String
deriving DecidableEq

/-- `KuduTableAlterer::Data` (table_alterer-internal.h), the fields
`ToRequest` reads: the deferred status (`none` models `Status::OK`),
the ordered step list, the optional global options, the optional
reference schema (abstract layout id; `none` models a null pointer),
and the external-catalogs flag. -/
structure Data where
  table_name : String
  status : Option StatusE
  steps : List Step
  rename_to : Option String
  set_owner_to : Option String
  set_comment_to : Option String
  set_replication_factor_to : Option Int
  new_extra_configs : Option (List (String × String))
  disk_size_limit : Option Int
  row_count_limit : Option Int
  schema : Option Nat
  modify_external_catalogs : Bool
deriving DecidableEq

/-- A fresh step entry as created by `add_alter_schema_steps()` followed
by `set_type(s.step_type)`: the type tag is set, no payload yet. -/
def basePB (s : Step) : PBStep :=
  { type := s.step_type
    add_column := none
    drop_column := none
    rename_column := none
    alter_column := none
    add_range_partition := none
    drop_range_partition := none }

/-- The `ALTER_COLUMN` case of the step switch
(table_alterer-internal.cc lines 127-164): reject requested
type/nullable/primary-key changes as NotSupported; reject a spec with no
mutable field as InvalidArgument; degrade a rename-only spec to a
RENAME_COLUMN entry (backward compatibility); otherwise resolve and emit
a full column delta under ALTER_COLUMN. -/
def alterColumnCase (cs : ColumnSpecData) (pb : PBStep) : Outcome × PBStep :=
  if cs.type ≠ none ∨ cs.nullable ≠ none ∨ cs.primary_key ≠ none then
    (Outcome.failure (StatusE.notSupported "unsupported alter operation" (some cs.name)), pb)
  else if cs.rename_to = none ∧ cs.default_val = none ∧ cs.remove_default = none ∧
          cs.encoding = none ∧ cs.compression = none ∧ cs.block_size = none ∧
          cs.comment = none then
    (Outcome.failure (StatusE.invalidArgument "no alter operation specified" (some cs.name)), pb)
  else if cs.default_val = none ∧ cs.remove_default = none ∧ cs.encoding = none ∧
          cs.compression = none ∧ cs.block_size = none ∧ cs.comment = none then
    match cs.rename_to with
    | some newName =>
        (Outcome.success,
         { pb with type := StepType.RENAME_COLUMN
                   rename_column := some (cs.name, newName) })
    | none => (Outcome.undefinedDeref "empty rename_to", pb)
  else
    (Outcome.success,
     { pb with type := StepType.ALTER_COLUMN
               alter_column := some (toColumnSchemaDelta cs) })

/-- Tag chosen for the lower bound row (lines 171-174 and 205-208):
`RANGE_LOWER_BOUND` when the bound is inclusive, otherwise
`EXCLUSIVE_RANGE_LOWER_BOUND`. -/
def lowerTag (rp : RangePartitionData) : RowOpType :=
  if rp.lower_bound_type = BoundType.INCLUSIVE_BOUND then
    RowOpType.RANGE_LOWER_BOUND
  else
    RowOpType.EXCLUSIVE_RANGE_LOWER_BOUND

/-- Tag chosen for the upper bound row (lines 176-179 and 210-213):
`RANGE_UPPER_BOUND` when the bound is exclusive, otherwise
`INCLUSIVE_RANGE_UPPER_BOUND`. -/
def upperTag (rp : RangePartitionData) : RowOpType :=
  if rp.upper_bound_type = BoundType.EXCLUSIVE_BOUND then
    RowOpType.RANGE_UPPER_BOUND
  else
    RowOpType.INCLUSIVE_RANGE_UPPER_BOUND

/-- The bound-operations buffer produced by the two `encoder.Add` calls:
the tagged lower bound row followed by the tagged upper bound row
(the Range Bound Encoder collaborator appends in call order). -/
def encodeBounds (rp : RangePartitionData) : List (RowOpType × PartialRow) :=
  [(lowerTag rp, rp.lower_bound), (upperTag rp, rp.upper_bound)]

/-- The `ADD_RANGE_PARTITION` case of the step switch (lines 166-198):
encode the two bounds, emit the hash-schema dimensions in order, attach
the dimension label when present. -/
def addRangeCase (rp : RangePartitionData) (lbl : Option String) (pb : PBStep) :
    Outcome × PBStep :=
  (Outcome.success,
   { pb with
     add_range_partition :=
       some ({ range_bounds := encodeBounds rp
               custom_hash_schema := rp.hash_schema.map (fun h =>
                 { columns := h.column_names
                   num_buckets := h.num_buckets
                   seed := h.seed })
               dimension_label := lbl }) })

/-- The `DROP_RANGE_PARTITION` case of the step switch (lines 200-217):
encode the two bounds identically to the add case; no hash schema and no
dimension label are emitted. -/
def dropRangeCase (rp : RangePartitionData) (pb : PBStep) : Outcome × PBStep :=
  (Outcome.success,
   { pb with
     drop_range_partition := some ({ range_bounds := encodeBounds rp }) })

/-- One iteration of the step loop (lines 108-222): create the entry
with its type tag, then dispatch on the type.  A null payload pointer is
a dereference fault; a step type outside the switch hits `LOG(FATAL)`. -/
def stepToPB (s : Step) : Outcome × PBStep :=
  let pb := basePB s
  match s.step_type with
  | StepType.ADD_COLUMN =>
      match s.spec with
      | some cs => (Outcome.success, { pb with add_column := some (toColumnSchema cs) })
      | none => (Outcome.undefinedDeref "null column spec", pb)
  | StepType.DROP_COLUMN =>
      match s.spec with
      | some cs => (Outcome.success, { pb with drop_column := some cs.name })
      | none => (Outcome.undefinedDeref "null column spec", pb)
  | StepType.ALTER_COLUMN =>
      match s.spec with
      | some cs => alterColumnCase cs pb
      | none => (Outcome.undefinedDeref "null column spec", pb)
  | StepType.ADD_RANGE_PARTITION =>
      match s.range_partition with
      | some rp => addRangeCase rp s.dimension_label pb
      | none => (Outcome.undefinedDeref "null range partition", pb)
  | StepType.DROP_RANGE_PARTITION =>
      match s.range_partition with
      | some rp => dropRangeCase rp pb
      | none => (Outcome.undefinedDeref "null range partition", pb)
  | StepType.RENAME_COLUMN => (Outcome.fatalError "unknown step type", pb)
  | StepType.UNKNOWN => (Outcome.fatalError "unknown step type", pb)

/-- The step loop: append one entry per step, stopping at the first
non-success outcome (the entry for the failing step has already been
appended with its type tag by the time the case code fails, exactly as
in the C++). -/
def processSteps : List Step → AlterTableRequestPB → Outcome × AlterTableRequestPB
  | [], req => (Outcome.success, req)
  | s :: rest, req =>
      let r := stepToPB s
      let req2 := { req with alter_schema_steps := req.alter_schema_steps ++ [r.2] }
      match r.1 with
      | Outcome.success => processSteps rest req2
      | o => (o, req2)

/-- `KuduTableAlterer::Data::ToRequest` (lines 58-225), with the output
message passed as explicit state: propagate a deferred status untouched;
reject an empty request; otherwise clear the message, populate the
scalar/mapping fields that are set, encode the reference schema when
present, and run the step loop. -/
def toRequest (d : Data) (req0 : AlterTableRequestPB) :
    Outcome × AlterTableRequestPB :=
  match d.status with
  | some e => (Outcome.failure e, req0)
  | none =>
      if d.rename_to = none ∧ d.new_extra_configs = none ∧ d.set_owner_to = none ∧
         d.set_comment_to = none ∧ d.disk_size_limit = none ∧ d.row_count_limit = none ∧
         d.set_replication_factor_to = none ∧ d.steps = [] then
        (Outcome.failure (StatusE.invalidArgument "No alter steps provided" none), req0)
      else
        processSteps d.steps
          { emptyRequest with
              modify_external_catalogs := some d.modify_external_catalogs
              table_name := some d.table_name
              new_table_name := d.rename_to
              new_extra_configs := d.new_extra_configs
              new_table_owner := d.set_owner_to
              new_table_comment := d.set_comment_to
              num_replicas := d.set_replication_factor_to
              schema := d.schema.map schemaToPB
              disk_size_limit := d.disk_size_limit
              row_count_limit := d.row_count_limit }

end KuduAlter

namespace KuduAlter

/-! ### Helper lemmas about the step loop -/

theorem alterColumnCase_ne_renameDeref (cs : ColumnSpecData) (pb : PBStep) :
    (alterColumnCase cs pb).1 ≠ Outcome.undefinedDeref "empty rename_to" := by
  unfold alterColumnCase
  split
  · simp
  · split
    · simp
    · split
      · rename_i h2 h3
        cases hr : cs.rename_to with
        | some r => simp
        | none => exact absurd ⟨hr, h3.1, h3.2.1, h3.2.2.1, h3.2.2.2.1,
                                h3.2.2.2.2.1, h3.2.2.2.2.2⟩ h2
      · simp

theorem alterColumnCase_ne_noSteps (cs : ColumnSpecData) (pb : PBStep) :
    (alterColumnCase cs pb).1 ≠
      Outcome.failure (StatusE.invalidArgument "No alter steps provided" none) := by
  unfold alterColumnCase
  split
  · simp
  · split
    · simp
    · split
      · cases hr : cs.rename_to with
        | some r => simp
        | none => simp
      · simp

theorem stepToPB_ne_noSteps (s : Step) :
    (stepToPB s).1 ≠
      Outcome.failure (StatusE.invalidArgument "No alter steps provided" none) := by
  unfold stepToPB
  cases s.step_type <;>
    first
      | (cases hs : s.spec with
          | some cs =>
              simp only [hs]
              first
                | exact alterColumnCase_ne_noSteps cs (basePB s)
                | simp
          | none => simp [hs])
      | (cases hr : s.range_partition with
          | some rp => simp [hr, addRangeCase, dropRangeCase]
          | none => simp [hr])

theorem stepToPB_ne_renameDeref (s : Step) :
    (stepToPB s).1 ≠ Outcome.undefinedDeref "empty rename_to" := by
  unfold stepToPB
  cases s.step_type <;>
    first
      | (cases hs : s.spec with
          | some cs =>
              simp only [hs]
              first
                | exact alterColumnCase_ne_renameDeref cs (basePB s)
                | simp
          | none => simp [hs])
      | (cases hr : s.range_partition with
          | some rp => simp [hr, addRangeCase, dropRangeCase]
          | none => simp [hr])

theorem processSteps_success_all (ss : List Step) :
    ∀ (req : AlterTableRequestPB), (processSteps ss req).1 = Outcome.success →
      ∀ s ∈ ss, (stepToPB s).1 = Outcome.success := by
  induction ss with
  | nil => intro req _ s hs; cases hs
  | cons a rest ih =>
      intro req h s hs
      simp only [processSteps] at h
      cases ho : (stepToPB a).1 with
      | success =>
          rw [ho] at h
          cases hs with
          | head => exact ho
          | tail _ hmem => exact ih _ h s hmem
      | failure e => rw [ho] at h; simp at h
      | fatalError m => rw [ho] at h; simp at h
      | undefinedDeref m => rw [ho] at h; simp at h

theorem processSteps_fst_cases (ss : List Step) :
    ∀ (req : AlterTableRequestPB), (processSteps ss req).1 = Outcome.success ∨
      ∃ s ∈ ss, (processSteps ss req).1 = (stepToPB s).1 := by
  induction ss with
  | nil => intro req; exact Or.inl rfl
  | cons a rest ih =>
      intro req
      simp only [processSteps]
      cases ho : (stepToPB a).1 with
      | success =>
          rcases ih ({ req with
              alter_schema_steps := req.alter_schema_steps ++ [(stepToPB a).2] }) with h | ⟨s, hmem, heq⟩
          · exact Or.inl h
          · exact Or.inr ⟨s, List.mem_cons_of_mem a hmem, heq⟩
      | failure e => exact Or.inr ⟨a, List.mem_cons_self a rest, by rw [ho]⟩
      | fatalError m => exact Or.inr ⟨a, List.mem_cons_self a rest, by rw [ho]⟩
      | undefinedDeref m => exact Or.inr ⟨a, List.mem_cons_self a rest, by rw [ho]⟩

theorem processSteps_success_shape (ss : List Step) :
    ∀ (req : AlterTableRequestPB), (processSteps ss req).1 = Outcome.success →
      (processSteps ss req).2 =
        { req with alter_schema_steps :=
            req.alter_schema_steps ++ ss.map (fun s => (stepToPB s).2) } := by
  induction ss with
  | nil => intro req _; simp [processSteps]
  | cons a rest ih =>
      intro req h
      simp only [processSteps] at h ⊢
      cases ho : (stepToPB a).1 with
      | success =>
          simp only [ho] at h ⊢
          rw [ih _ h]
          simp
      | failure e => rw [ho] at h; simp at h
      | fatalError m => rw [ho] at h; simp at h
      | undefinedDeref m => rw [ho] at h; simp at h

end KuduAlter

namespace KuduAlter

theorem toRequest_success_all (d : Data) (req0 : AlterTableRequestPB)
    (h : (toRequest d req0).1 = Outcome.success) :
    ∀ s ∈ d.steps, (stepToPB s).1 = Outcome.success := by
  unfold toRequest at h
  cases hst : d.status with
  | some e => rw [hst] at h; simp at h
  | none =>
      rw [hst] at h
      by_cases hc : d.rename_to = none ∧ d.new_extra_configs = none ∧
          d.set_owner_to = none ∧ d.set_comment_to = none ∧ d.disk_size_limit = none ∧
          d.row_count_limit = none ∧ d.set_replication_factor_to = none ∧ d.steps = []
      · rw [if_pos hc] at h; simp at h
      · rw [if_neg hc] at h; exact processSteps_success_all d.steps _ h

theorem alterColumnCase_notSupported (cs : ColumnSpecData) (pb : PBStep)
    (h : cs.type ≠ none ∨ cs.nullable ≠ none ∨ cs.primary_key ≠ none) :
    alterColumnCase cs pb =
      (Outcome.failure (StatusE.notSupported "unsupported alter operation" (some cs.name)),
       pb) := by
  unfold alterColumnCase
  rw [if_pos h]

theorem alterColumnCase_invalidArg (cs : ColumnSpecData) (pb : PBStep)
    (hty : cs.type = none) (hnl : cs.nullable = none) (hpk : cs.primary_key = none)
    (h7 : cs.rename_to = none ∧ cs.default_val = none ∧ cs.remove_default = none ∧
          cs.encoding = none ∧ cs.compression = none ∧ cs.block_size = none ∧
          cs.comment = none) :
    alterColumnCase cs pb =
      (Outcome.failure (StatusE.invalidArgument "no alter operation specified" (some cs.name)),
       pb) := by
  unfold alterColumnCase
  rw [if_neg (by simp [hty, hnl, hpk]), if_pos h7]

/-- C1: for an AlterColumn step that passes validation (no
type/nullable/primary-key change requested, rename-to set), the emitted
entry degrades to tag RENAME_COLUMN carrying (old name, new name) and no
delta exactly when rename-to is the only mutable field set; when any
other mutable field is also set, the entry keeps tag ALTER_COLUMN with a
full column delta and the rename-column payload stays empty. -/
theorem alter_column_rename_degrade (cs : ColumnSpecData) (pb : PBStep) (r : String)
    (hty : cs.type = none) (hnl : cs.nullable = none) (hpk : cs.primary_key = none)
    (hr : cs.rename_to = some r) :
    ((cs.default_val = none ∧ cs.remove_default = none ∧ cs.encoding = none ∧
      cs.compression = none ∧ cs.block_size = none ∧ cs.comment = none) →
      alterColumnCase cs pb =
        (Outcome.success,
         { pb with
             type := StepType.RENAME_COLUMN
             rename_column := some (cs.name, r) }))
    ∧ ((cs.default_val ≠ none ∨ cs.remove_default ≠ none ∨ cs.encoding ≠ none ∨
        cs.compression ≠ none ∨ cs.block_size ≠ none ∨ cs.comment ≠ none) →
      alterColumnCase cs pb =
        (Outcome.success,
         { pb with
             type := StepType.ALTER_COLUMN
             alter_column := some (toColumnSchemaDelta cs) })) := by
  constructor
  · rintro ⟨h1, h2, h3, h4, h5, h6⟩
    unfold alterColumnCase
    rw [if_neg (by simp [hty, hnl, hpk]),
        if_neg (by simp [hr]),
        if_pos ⟨h1, h2, h3, h4, h5, h6⟩, hr]
  · intro h
    have hne : ¬(cs.default_val = none ∧ cs.remove_default = none ∧ cs.encoding = none ∧
        cs.compression = none ∧ cs.block_size = none ∧ cs.comment = none) := by
      rcases h with h | h | h | h | h | h <;> intro hc <;> exact h (by tauto)
    unfold alterColumnCase
    rw [if_neg (by simp [hty, hnl, hpk]),
        if_neg (by intro hc; exact hne ⟨hc.2.1, hc.2.2.1, hc.2.2.2.1, hc.2.2.2.2.1,
                                        hc.2.2.2.2.2.1, hc.2.2.2.2.2.2⟩),
        if_neg hne]

/-- C1 witness: a rename-only spec degrades to a RENAME_COLUMN entry and
a rename-plus-comment spec keeps an ALTER_COLUMN entry with a delta. -/
theorem alter_column_rename_degrade_witness :
    (alterColumnCase
        { name := "d", type := none, nullable := none, primary_key := none,
          rename_to := some "e", default_val := none, remove_default := none,
          encoding := none, compression := none, block_size := none, comment := none }
        (basePB { step_type := StepType.ALTER_COLUMN, spec := none,
                  range_partition := none, dimension_label := none }) =
      (Outcome.success,
       { basePB { step_type := StepType.ALTER_COLUMN, spec := none,
                  range_partition := none, dimension_label := none } with
           type := StepType.RENAME_COLUMN
           rename_column := some ("d", "e") }))
    ∧ (alterColumnCase
        { name := "d", type := none, nullable := none, primary_key := none,
          rename_to := some "e", default_val := none, remove_default := none,
          encoding := none, compression := none, block_size := none,
          comment := some "hello" }
        (basePB { step_type := StepType.ALTER_COLUMN, spec := none,
                  range_partition := none, dimension_label := none }) =
      (Outcome.success,
       { basePB { step_type := StepType.ALTER_COLUMN, spec := none,
                  range_partition := none, dimension_label := none } with
           type := StepType.ALTER_COLUMN
           alter_column := some (toColumnSchemaDelta
             { name := "d", type := none, nullable := none, primary_key := none,
               rename_to := some "e", default_val := none, remove_default := none,
               encoding := none, compression := none, block_size := none,
               comment := some "hello" }) })) := by
  constructor
  · exact (alter_column_rename_degrade _ _ "e" rfl rfl rfl rfl).1
      ⟨rfl, rfl, rfl, rfl, rfl, rfl⟩
  · exact (alter_column_rename_degrade _ _ "e" rfl rfl rfl rfl).2
      (by right; right; right; right; right; simp)

end KuduAlter

namespace KuduAlter

/-- C2: for AddRangePartition and DropRangePartition steps the asymmetric
bound-tag rule holds — an inclusive lower bound is tagged
RANGE_LOWER_BOUND and an exclusive one EXCLUSIVE_RANGE_LOWER_BOUND,
an exclusive upper bound is tagged RANGE_UPPER_BOUND and an inclusive
one INCLUSIVE_RANGE_UPPER_BOUND — and the drop case emits exactly the
same encoded bound pair as the add case while carrying no hash schema
and no dimension label (its payload holds only the bounds; the
add-partition payload slot stays untouched). -/
theorem range_partition_bound_tags (rp : RangePartitionData) (lbl : Option String)
    (pb pb2 : PBStep) :
    (addRangeCase rp lbl pb).2.add_range_partition.map AddRangePartitionPB.range_bounds
      = some (encodeBounds rp)
    ∧ (dropRangeCase rp pb2).2.drop_range_partition
      = some ({ range_bounds := encodeBounds rp })
    ∧ encodeBounds rp = [(lowerTag rp, rp.lower_bound), (upperTag rp, rp.upper_bound)]
    ∧ (lowerTag rp = RowOpType.RANGE_LOWER_BOUND
        ↔ rp.lower_bound_type = BoundType.INCLUSIVE_BOUND)
    ∧ (lowerTag rp = RowOpType.EXCLUSIVE_RANGE_LOWER_BOUND
        ↔ rp.lower_bound_type = BoundType.EXCLUSIVE_BOUND)
    ∧ (upperTag rp = RowOpType.RANGE_UPPER_BOUND
        ↔ rp.upper_bound_type = BoundType.EXCLUSIVE_BOUND)
    ∧ (upperTag rp = RowOpType.INCLUSIVE_RANGE_UPPER_BOUND
        ↔ rp.upper_bound_type = BoundType.INCLUSIVE_BOUND)
    ∧ (dropRangeCase rp pb2).2.add_range_partition = pb2.add_range_partition
    ∧ (dropRangeCase rp pb2).2.type = pb2.type := by
  refine ⟨by simp [addRangeCase], by simp [dropRangeCase], rfl, ?_, ?_, ?_, ?_,
          by simp [dropRangeCase], by simp [dropRangeCase]⟩
  · cases h : rp.lower_bound_type <;> simp [lowerTag, h]
  · cases h : rp.lower_bound_type <;> simp [lowerTag, h]
  · cases h : rp.upper_bound_type <;> simp [upperTag, h]
  · cases h : rp.upper_bound_type <;> simp [upperTag, h]

/-- C4: an AlterColumn step requesting a type, nullable or primary-key
change makes its case fail with NotSupported naming the column,
regardless of the other fields, and a spec containing such a step never
finalizes successfully. -/
theorem alter_column_type_change_not_supported (cs : ColumnSpecData) (pb : PBStep)
    (d : Data) (req0 : AlterTableRequestPB) (s : Step)
    (h : cs.type ≠ none ∨ cs.nullable ≠ none ∨ cs.primary_key ≠ none) :
    alterColumnCase cs pb =
      (Outcome.failure (StatusE.notSupported "unsupported alter operation" (some cs.name)),
       pb)
    ∧ (s ∈ d.steps → s.step_type = StepType.ALTER_COLUMN → s.spec = some cs →
        (toRequest d req0).1 ≠ Outcome.success) := by
  refine ⟨alterColumnCase_notSupported cs pb h, ?_⟩
  intro hmem hty hspec hsucc
  have hall := toRequest_success_all d req0 hsucc s hmem
  simp only [stepToPB, hty, hspec] at hall
  rw [alterColumnCase_notSupported cs (basePB s) h] at hall
  simp at hall

/-- C4 witness: a column spec with a requested type change fails its
case with NotSupported naming the column, and a one-step spec carrying
it does not finalize successfully. -/
theorem alter_column_type_change_not_supported_witness :
    (alterColumnCase
        { name := "c0", type := some 1, nullable := none, primary_key := none,
          rename_to := none, default_val := none, remove_default := none,
          encoding := none, compression := none, block_size := none, comment := none }
        (basePB { step_type := StepType.ALTER_COLUMN,
                  spec := some { name := "c0", type := some 1, nullable := none,
                                 primary_key := none, rename_to := none,
                                 default_val := none, remove_default := none,
                                 encoding := none, compression := none,
                                 block_size := none, comment := none },
                  range_partition := none, dimension_label := none }) =
      (Outcome.failure (StatusE.notSupported "unsupported alter operation" (some "c0")),
       basePB { step_type := StepType.ALTER_COLUMN,
                spec := some { name := "c0", type := some 1, nullable := none,
                               primary_key := none, rename_to := none,
                               default_val := none, remove_default := none,
                               encoding := none, compression := none,
                               block_size := none, comment := none },
                range_partition := none, dimension_label := none }))
    ∧ ((toRequest
          { table_name := "t", status := none,
            steps := [{ step_type := StepType.ALTER_COLUMN,
                        spec := some { name := "c0", type := some 1, nullable := none,
                                       primary_key := none, rename_to := none,
                                       default_val := none, remove_default := none,
                                       encoding := none, compression := none,
                                       block_size := none, comment := none },
                        range_partition := none, dimension_label := none }],
            rename_to := none, set_owner_to := none, set_comment_to := none,
            set_replication_factor_to := none, new_extra_configs := none,
            disk_size_limit := none, row_count_limit := none, schema := none,
            modify_external_catalogs := true }
          emptyRequest).1 ≠ Outcome.success) := by
  constructor
  · exact (alter_column_type_change_not_supported _ _
      { table_name := "t", status := none, steps := [], rename_to := none,
        set_owner_to := none, set_comment_to := none, set_replication_factor_to := none,
        new_extra_configs := none, disk_size_limit := none, row_count_limit := none,
        schema := none, modify_external_catalogs := true }
      emptyRequest
      { step_type := StepType.ALTER_COLUMN, spec := none, range_partition := none,
        dimension_label := none }
      (Or.inl (by simp))).1
  · exact (alter_column_type_change_not_supported _
      (basePB { step_type := StepType.ALTER_COLUMN, spec := none,
                range_partition := none, dimension_label := none })
      _ emptyRequest _
      (Or.inl (by simp))).2 (List.mem_singleton.mpr rfl) rfl rfl

end KuduAlter

namespace KuduAlter

/-- C5: an AlterColumn step with none of the seven mutable fields set
(and no type/nullable/primary-key change requested) makes its case fail
with InvalidArgument naming the column, and a spec containing such a
step never finalizes successfully. -/
theorem alter_column_no_field_invalid_argument (cs : ColumnSpecData) (pb : PBStep)
    (d : Data) (req0 : AlterTableRequestPB) (s : Step)
    (hty : cs.type = none) (hnl : cs.nullable = none) (hpk : cs.primary_key = none)
    (h7 : cs.rename_to = none ∧ cs.default_val = none ∧ cs.remove_default = none ∧
          cs.encoding = none ∧ cs.compression = none ∧ cs.block_size = none ∧
          cs.comment = none) :
    alterColumnCase cs pb =
      (Outcome.failure (StatusE.invalidArgument "no alter operation specified" (some cs.name)),
       pb)
    ∧ (s ∈ d.steps → s.step_type = StepType.ALTER_COLUMN → s.spec = some cs →
        (toRequest d req0).1 ≠ Outcome.success) := by
  refine ⟨alterColumnCase_invalidArg cs pb hty hnl hpk h7, ?_⟩
  intro hmem hsty hspec hsucc
  have hall := toRequest_success_all d req0 hsucc s hmem
  simp only [stepToPB, hsty, hspec] at hall
  rw [alterColumnCase_invalidArg cs (basePB s) hty hnl hpk h7] at hall
  simp at hall

/-- C5 witness: a column spec with no mutable field set fails its case
with InvalidArgument naming the column, and a one-step spec carrying it
does not finalize successfully. -/
theorem alter_column_no_field_invalid_argument_witness :
    (alterColumnCase
        { name := "c1", type := none, nullable := none, primary_key := none,
          rename_to := none, default_val := none, remove_default := none,
          encoding := none, compression := none, block_size := none, comment := none }
        (basePB { step_type := StepType.ALTER_COLUMN, spec := none,
                  range_partition := none, dimension_label := none }) =
      (Outcome.failure (StatusE.invalidArgument "no alter operation specified" (some "c1")),
       basePB { step_type := StepType.ALTER_COLUMN, spec := none,
                range_partition := none, dimension_label := none }))
    ∧ ((toRequest
          { table_name := "t", status := none,
            steps := [{ step_type := StepType.ALTER_COLUMN,
                        spec := some { name := "c1", type := none, nullable := none,
                                       primary_key := none, rename_to := none,
                                       default_val := none, remove_default := none,
                                       encoding := none, compression := none,
                                       block_size := none, comment := none },
                        range_partition := none, dimension_label := none }],
            rename_to := none, set_owner_to := none, set_comment_to := none,
            set_replication_factor_to := none, new_extra_configs := none,
            disk_size_limit := none, row_count_limit := none, schema := none,
            modify_external_catalogs := true }
          emptyRequest).1 ≠ Outcome.success) := by
  constructor
  · exact (alter_column_no_field_invalid_argument _ _
      { table_name := "t", status := none, steps := [], rename_to := none,
        set_owner_to := none, set_comment_to := none, set_replication_factor_to := none,
        new_extra_configs := none, disk_size_limit := none, row_count_limit := none,
        schema := none, modify_external_catalogs := true }
      emptyRequest
      { step_type := StepType.ALTER_COLUMN, spec := none, range_partition := none,
        dimension_label := none }
      rfl rfl rfl ⟨rfl, rfl, rfl, rfl, rfl, rfl, rfl⟩).1
  · exact (alter_column_no_field_invalid_argument _
      (basePB { step_type := StepType.ALTER_COLUMN, spec := none,
                range_partition := none, dimension_label := none })
      _ emptyRequest _
      rfl rfl rfl ⟨rfl, rfl, rfl, rfl, rfl, rfl, rfl⟩).2
      (List.mem_singleton.mpr rfl) rfl rfl

/-- C3: finalize propagates a previously captured deferred status
verbatim, leaving the output message untouched; with no deferred status,
it returns InvalidArgument with message "No alter steps provided" if and
only if no step has been accumulated and none of the seven global
options (rename-to, extra configs, owner, comment, disk-size limit,
row-count limit, replication factor) is set. -/
theorem to_request_deferred_and_empty_check (d : Data) (req0 : AlterTableRequestPB) :
    (∀ e, d.status = some e → toRequest d req0 = (Outcome.failure e, req0))
    ∧ (d.status = none →
        ((toRequest d req0).1 =
            Outcome.failure (StatusE.invalidArgument "No alter steps provided" none)
          ↔ (d.rename_to = none ∧ d.new_extra_configs = none ∧ d.set_owner_to = none ∧
             d.set_comment_to = none ∧ d.disk_size_limit = none ∧ d.row_count_limit = none ∧
             d.set_replication_factor_to = none ∧ d.steps = []))) := by
  constructor
  · intro e he
    unfold toRequest
    rw [he]
  · intro hst
    constructor
    · intro hfail
      by_contra hc
      unfold toRequest at hfail
      rw [hst, if_neg hc] at hfail
      rcases processSteps_fst_cases d.steps _ with h | ⟨s, _, heq⟩
      · rw [h] at hfail; simp at hfail
      · rw [heq] at hfail
        exact stepToPB_ne_noSteps s hfail
    · intro hc
      unfold toRequest
      rw [hst, if_pos hc]

/-- C3 witness: a deferred status is propagated verbatim with the output
untouched, an all-empty spec yields the "No alter steps provided" error,
and a spec with one option set does not yield it. -/
theorem to_request_deferred_and_empty_check_witness :
    (toRequest
        { table_name := "t", status := some (StatusE.otherError "boom"), steps := [],
          rename_to := none, set_owner_to := none, set_comment_to := none,
          set_replication_factor_to := none, new_extra_configs := none,
          disk_size_limit := none, row_count_limit := none, schema := none,
          modify_external_catalogs := true }
        emptyRequest =
      (Outcome.failure (StatusE.otherError "boom"), emptyRequest))
    ∧ ((toRequest
          { table_name := "t", status := none, steps := [], rename_to := none,
            set_owner_to := none, set_comment_to := none, set_replication_factor_to := none,
            new_extra_configs := none, disk_size_limit := none, row_count_limit := none,
            schema := none, modify_external_catalogs := true }
          emptyRequest).1 =
        Outcome.failure (StatusE.invalidArgument "No alter steps provided" none))
    ∧ ¬((toRequest
          { table_name := "t", status := none, steps := [], rename_to := some "t2",
            set_owner_to := none, set_comment_to := none, set_replication_factor_to := none,
            new_extra_configs := none, disk_size_limit := none, row_count_limit := none,
            schema := none, modify_external_catalogs := true }
          emptyRequest).1 =
        Outcome.failure (StatusE.invalidArgument "No alter steps provided" none)) := by
  refine ⟨(to_request_deferred_and_empty_check _ emptyRequest).1 _ rfl, ?_, ?_⟩
  · exact ((to_request_deferred_and_empty_check _ emptyRequest).2 rfl).mpr
      ⟨rfl, rfl, rfl, rfl, rfl, rfl, rfl, rfl⟩
  · intro hfail
    have := ((to_request_deferred_and_empty_check _ emptyRequest).2 rfl).mp hfail
    simp at this

end KuduAlter

namespace KuduAlter

/-- C6: on a successful finalize the output step list carries exactly one
entry per accumulated step in insertion order (the image of the step
list under the per-step encoding), and an AddRangePartition entry lists
the hash-schema dimensions in exactly the order supplied, each keeping
its column-name list, bucket count and seed. -/
theorem to_request_step_order (d : Data) (req0 : AlterTableRequestPB)
    (h : (toRequest d req0).1 = Outcome.success) :
    (toRequest d req0).2.alter_schema_steps = d.steps.map (fun s => (stepToPB s).2)
    ∧ ∀ (rp : RangePartitionData) (lbl : Option String) (pb : PBStep)
        (arp : AddRangePartitionPB),
        (addRangeCase rp lbl pb).2.add_range_partition = some arp →
        arp.custom_hash_schema = rp.hash_schema.map
          (fun hd => { columns := hd.column_names, num_buckets := hd.num_buckets,
                       seed := hd.seed }) := by
  constructor
  · cases hst : d.status with
    | some e =>
        unfold toRequest at h
        rw [hst] at h
        simp at h
    | none =>
        unfold toRequest at h ⊢
        rw [hst] at h ⊢
        by_cases hc : d.rename_to = none ∧ d.new_extra_configs = none ∧
            d.set_owner_to = none ∧ d.set_comment_to = none ∧ d.disk_size_limit = none ∧
            d.row_count_limit = none ∧ d.set_replication_factor_to = none ∧ d.steps = []
        · rw [if_pos hc] at h; simp at h
        · rw [if_neg hc] at h ⊢
          rw [processSteps_success_shape d.steps _ h]
          simp [emptyRequest]
  · intro rp lbl pb arp harp
    simp only [addRangeCase] at harp
    cases harp
    rfl

/-- C6 witness: a two-step spec (drop column, then add range partition
with two hash dimensions) finalizes successfully into exactly those two
entries in order, and the hash dimensions are emitted in the supplied
order with their contents. -/
theorem to_request_step_order_witness :
    ((toRequest
        { table_name := "t", status := none,
          steps := [{ step_type := StepType.DROP_COLUMN,
                      spec := some { name := "c2", type := none, nullable := none,
                                     primary_key := none, rename_to := none,
                                     default_val := none, remove_default := none,
                                     encoding := none, compression := none,
                                     block_size := none, comment := none },
                      range_partition := none, dimension_label := none },
                    { step_type := StepType.ADD_RANGE_PARTITION, spec := none,
                      range_partition := some
                        { lower_bound_type := BoundType.INCLUSIVE_BOUND,
                          upper_bound_type := BoundType.EXCLUSIVE_BOUND,
                          lower_bound := { schema_id := 3, cells := [0] },
                          upper_bound := { schema_id := 3, cells := [10] },
                          hash_schema := [{ column_names := ["a", "b"], num_buckets := 4,
                                            seed := 7 },
                                          { column_names := ["c"], num_buckets := 2,
                                            seed := 0 }] },
                      dimension_label := some "dim" }],
          rename_to := none, set_owner_to := none, set_comment_to := none,
          set_replication_factor_to := none, new_extra_configs := none,
          disk_size_limit := none, row_count_limit := none, schema := some 3,
          modify_external_catalogs := true }
        emptyRequest).2.alter_schema_steps.map PBStep.type =
      [StepType.DROP_COLUMN, StepType.ADD_RANGE_PARTITION]) := by
  have h := (to_request_step_order
    { table_name := "t", status := none,
      steps := [{ step_type := StepType.DROP_COLUMN,
                  spec := some { name := "c2", type := none, nullable := none,
                                 primary_key := none, rename_to := none,
                                 default_val := none, remove_default := none,
                                 encoding := none, compression := none,
                                 block_size := none, comment := none },
                  range_partition := none, dimension_label := none },
                { step_type := StepType.ADD_RANGE_PARTITION, spec := none,
                  range_partition := some
                    { lower_bound_type := BoundType.INCLUSIVE_BOUND,
                      upper_bound_type := BoundType.EXCLUSIVE_BOUND,
                      lower_bound := { schema_id := 3, cells := [0] },
                      upper_bound := { schema_id := 3, cells := [10] },
                      hash_schema := [{ column_names := ["a", "b"], num_buckets := 4,
                                        seed := 7 },
                                      { column_names := ["c"], num_buckets := 2,
                                        seed := 0 }] },
                  dimension_label := some "dim" }],
      rename_to := none, set_owner_to := none, set_comment_to := none,
      set_replication_factor_to := none, new_extra_configs := none,
      disk_size_limit := none, row_count_limit := none, schema := some 3,
      modify_external_catalogs := true }
    emptyRequest (by decide)).1
  rw [h]
  decide

/-- C9: on a successful finalize each message-level scalar/mapping field
of the output equals the corresponding option of the spec, so the field
is present in the message exactly when the option was explicitly set
and absent (not defaulted) otherwise. -/
theorem to_request_optional_fields (d : Data) (req0 : AlterTableRequestPB)
    (h : (toRequest d req0).1 = Outcome.success) :
    (toRequest d req0).2.new_table_name = d.rename_to
    ∧ (toRequest d req0).2.new_extra_configs = d.new_extra_configs
    ∧ (toRequest d req0).2.new_table_owner = d.set_owner_to
    ∧ (toRequest d req0).2.new_table_comment = d.set_comment_to
    ∧ (toRequest d req0).2.num_replicas = d.set_replication_factor_to
    ∧ (toRequest d req0).2.disk_size_limit = d.disk_size_limit
    ∧ (toRequest d req0).2.row_count_limit = d.row_count_limit := by
  cases hst : d.status with
  | some e =>
      unfold toRequest at h
      rw [hst] at h
      simp at h
  | none =>
      unfold toRequest at h ⊢
      rw [hst] at h ⊢
      by_cases hc : d.rename_to = none ∧ d.new_extra_configs = none ∧
          d.set_owner_to = none ∧ d.set_comment_to = none ∧ d.disk_size_limit = none ∧
          d.row_count_limit = none ∧ d.set_replication_factor_to = none ∧ d.steps = []
      · rw [if_pos hc] at h; simp at h
      · rw [if_neg hc] at h ⊢
        rw [processSteps_success_shape d.steps _ h]
        simp

/-- C9 witness: a spec with only an owner and a row-count limit set
finalizes with exactly those fields present and the other optional
fields absent. -/
theorem to_request_optional_fields_witness :
    (toRequest
        { table_name := "t", status := none, steps := [], rename_to := none,
          set_owner_to := some "alice", set_comment_to := none,
          set_replication_factor_to := none, new_extra_configs := none,
          disk_size_limit := none, row_count_limit := some 99, schema := none,
          modify_external_catalogs := true }
        emptyRequest).2.new_table_name = none
    ∧ (toRequest
        { table_name := "t", status := none, steps := [], rename_to := none,
          set_owner_to := some "alice", set_comment_to := none,
          set_replication_factor_to := none, new_extra_configs := none,
          disk_size_limit := none, row_count_limit := some 99, schema := none,
          modify_external_catalogs := true }
        emptyRequest).2.new_extra_configs = none
    ∧ (toRequest
        { table_name := "t", status := none, steps := [], rename_to := none,
          set_owner_to := some "alice", set_comment_to := none,
          set_replication_factor_to := none, new_extra_configs := none,
          disk_size_limit := none, row_count_limit := some 99, schema := none,
          modify_external_catalogs := true }
        emptyRequest).2.new_table_owner = some "alice"
    ∧ (toRequest
        { table_name := "t", status := none, steps := [], rename_to := none,
          set_owner_to := some "alice", set_comment_to := none,
          set_replication_factor_to := none, new_extra_configs := none,
          disk_size_limit := none, row_count_limit := some 99, schema := none,
          modify_external_catalogs := true }
        emptyRequest).2.new_table_comment = none
    ∧ (toRequest
        { table_name := "t", status := none, steps := [], rename_to := none,
          set_owner_to := some "alice", set_comment_to := none,
          set_replication_factor_to := none, new_extra_configs := none,
          disk_size_limit := none, row_count_limit := some 99, schema := none,
          modify_external_catalogs := true }
        emptyRequest).2.num_replicas = none
    ∧ (toRequest
        { table_name := "t", status := none, steps := [], rename_to := none,
          set_owner_to := some "alice", set_comment_to := none,
          set_replication_factor_to := none, new_extra_configs := none,
          disk_size_limit := none, row_count_limit := some 99, schema := none,
          modify_external_catalogs := true }
        emptyRequest).2.disk_size_limit = none
    ∧ (toRequest
        { table_name := "t", status := none, steps := [], rename_to := none,
          set_owner_to := some "alice", set_comment_to := none,
          set_replication_factor_to := none, new_extra_configs := none,
          disk_size_limit := none, row_count_limit := some 99, schema := none,
          modify_external_catalogs := true }
        emptyRequest).2.row_count_limit = some 99 :=
  to_request_optional_fields
    { table_name := "t", status := none, steps := [], rename_to := none,
      set_owner_to := some "alice", set_comment_to := none,
      set_replication_factor_to := none, new_extra_configs := none,
      disk_size_limit := none, row_count_limit := some 99, schema := none,
      modify_external_catalogs := true }
    emptyRequest (by decide)

/-- C10: the rename-to dereference in the RenameColumn degrade branch can
never fault: whatever the spec and the initial message, finalize never
produces the undefined-behaviour outcome for an empty rename-to, because
the preceding no-mutable-field check guarantees that when the six other
mutable fields are unset, rename-to is set. -/
theorem rename_deref_safe (d : Data) (req0 : AlterTableRequestPB) :
    (toRequest d req0).1 ≠ Outcome.undefinedDeref "empty rename_to" := by
  cases hst : d.status with
  | some e => unfold toRequest; rw [hst]; simp
  | none =>
      unfold toRequest
      rw [hst]
      by_cases hc : d.rename_to = none ∧ d.new_extra_configs = none ∧
          d.set_owner_to = none ∧ d.set_comment_to = none ∧ d.disk_size_limit = none ∧
          d.row_count_limit = none ∧ d.set_replication_factor_to = none ∧ d.steps = []
      · rw [if_pos hc]; simp
      · rw [if_neg hc]
        rcases processSteps_fst_cases d.steps _ with h | ⟨s, _, heq⟩
        · rw [h]; simp
        · rw [heq]
          exact stepToPB_ne_renameDeref s

end KuduAlter

namespace KuduAlter

/-- A spec carrying only a deferred error status. -/
def deferredData : Data :=
  { table_name := "t", status := some (StatusE.otherError "boom"), steps := [],
    rename_to := none, set_owner_to := none, set_comment_to := none,
    set_replication_factor_to := none, new_extra_configs := none,
    disk_size_limit := none, row_count_limit := none, schema := none,
    modify_external_catalogs := true }

/-- A spec with no steps and no global option set. -/
def emptyData : Data :=
  { table_name := "t", status := none, steps := [], rename_to := none,
    set_owner_to := none, set_comment_to := none, set_replication_factor_to := none,
    new_extra_configs := none, disk_size_limit := none, row_count_limit := none,
    schema := none, modify_external_catalogs := true }

/-- A spec combining a table rename with an AlterColumn step that
requests a type change (so the step loop fails after the scalar fields
have been written). -/
def renamePlusBadStepData : Data :=
  { table_name := "t", status := none,
    steps := [{ step_type := StepType.ALTER_COLUMN,
                spec := some { name := "c0", type := some 1, nullable := none,
                               primary_key := none, rename_to := none,
                               default_val := none, remove_default := none,
                               encoding := none, compression := none,
                               block_size := none, comment := none },
                range_partition := none, dimension_label := none }],
    rename_to := some "t2", set_owner_to := none, set_comment_to := none,
    set_replication_factor_to := none, new_extra_configs := none,
    disk_size_limit := none, row_count_limit := none, schema := none,
    modify_external_catalogs := true }

/-- C7 counterexample: on a step-validation failure the output message
IS partially mutated — finalize fails, yet the output differs from its
initial value and already carries the new table name (and a bare step
entry), so a partial wire message is produced. -/
theorem to_request_partial_mutation_cex :
    (toRequest renamePlusBadStepData emptyRequest).1 ≠ Outcome.success
    ∧ (toRequest renamePlusBadStepData emptyRequest).2 ≠ emptyRequest
    ∧ (toRequest renamePlusBadStepData emptyRequest).2.new_table_name = some "t2"
    ∧ (toRequest renamePlusBadStepData emptyRequest).2.alter_schema_steps.length = 1 := by
  decide

/-- C7 amended: the two pre-population failures — a deferred status and
the empty-request InvalidArgument — leave the output message untouched;
once population has begun, a step-validation failure may leave the
output partially populated (the caller uses the message only on
success). -/
theorem to_request_precheck_no_mutation (d : Data) (req0 : AlterTableRequestPB) :
    (∀ e, d.status = some e → (toRequest d req0).2 = req0)
    ∧ ((d.status = none ∧ d.rename_to = none ∧ d.new_extra_configs = none ∧
        d.set_owner_to = none ∧ d.set_comment_to = none ∧ d.disk_size_limit = none ∧
        d.row_count_limit = none ∧ d.set_replication_factor_to = none ∧ d.steps = []) →
        (toRequest d req0).2 = req0) := by
  constructor
  · intro e he
    unfold toRequest
    rw [he]
  · rintro ⟨hst, hc⟩
    unfold toRequest
    rw [hst, if_pos hc]

/-- C7 amended witness: the deferred-status and empty-request failures
leave a concrete output message untouched. -/
theorem to_request_precheck_no_mutation_witness :
    (toRequest deferredData emptyRequest).2 = emptyRequest
    ∧ (toRequest emptyData emptyRequest).2 = emptyRequest :=
  ⟨(to_request_precheck_no_mutation deferredData emptyRequest).1
      (StatusE.otherError "boom") rfl,
   (to_request_precheck_no_mutation emptyData emptyRequest).2
      ⟨rfl, rfl, rfl, rfl, rfl, rfl, rfl, rfl, rfl⟩⟩

/-- A spec whose only step drops a range partition and which carries no
reference schema. -/
def dropOnlyData (rp : RangePartitionData) : Data :=
  { table_name := "t", status := none,
    steps := [{ step_type := StepType.DROP_RANGE_PARTITION, spec := none,
                range_partition := some rp, dimension_label := none }],
    rename_to := none, set_owner_to := none, set_comment_to := none,
    set_replication_factor_to := none, new_extra_configs := none,
    disk_size_limit := none, row_count_limit := none, schema := none,
    modify_external_catalogs := true }

/-- A concrete range partition with inclusive lower and exclusive upper
bound and no custom hash schema. -/
def cexRange : RangePartitionData :=
  { lower_bound_type := BoundType.INCLUSIVE_BOUND,
    upper_bound_type := BoundType.EXCLUSIVE_BOUND,
    lower_bound := { schema_id := 0, cells := [1] },
    upper_bound := { schema_id := 0, cells := [9] },
    hash_schema := [] }

/-- C8 counterexample: a spec containing a range-partition step and no
reference schema still finalizes successfully — finalize performs no
schema-presence check. -/
theorem range_partition_no_schema_cex :
    (dropOnlyData cexRange).schema = none
    ∧ (dropOnlyData cexRange).steps.map Step.step_type = [StepType.DROP_RANGE_PARTITION]
    ∧ (toRequest (dropOnlyData cexRange) emptyRequest).1 = Outcome.success := by
  decide

/-- C8 amended: finalize itself does not require a reference schema for
range-partition steps — a spec whose only step drops a range partition
finalizes successfully with no schema present, the bound rows being
taken from the rows carried in the partition payload; the reference
schema, when present on the spec, is encoded into the message, and is
omitted when absent (schema presence for range steps is maintained by
the accumulator outside this fragment). -/
theorem range_partition_schema_optional (rp : RangePartitionData) (d : Data)
    (req0 : AlterTableRequestPB) (h : (toRequest d req0).1 = Outcome.success) :
    (toRequest (dropOnlyData rp) emptyRequest).1 = Outcome.success
    ∧ (toRequest (dropOnlyData rp) emptyRequest).2.alter_schema_steps.map
        (fun pb => pb.drop_range_partition) =
        [some ({ range_bounds := encodeBounds rp })]
    ∧ (toRequest d req0).2.schema = Option.map schemaToPB d.schema := by
  refine ⟨?_, ?_, ?_⟩
  · simp [toRequest, dropOnlyData, processSteps, stepToPB, dropRangeCase]
  · simp [toRequest, dropOnlyData, processSteps, stepToPB, dropRangeCase, basePB,
          emptyRequest]
  · cases hst : d.status with
    | some e =>
        unfold toRequest at h
        rw [hst] at h
        simp at h
    | none =>
        unfold toRequest at h ⊢
        rw [hst] at h ⊢
        by_cases hc : d.rename_to = none ∧ d.new_extra_configs = none ∧
            d.set_owner_to = none ∧ d.set_comment_to = none ∧ d.disk_size_limit = none ∧
            d.row_count_limit = none ∧ d.set_replication_factor_to = none ∧ d.steps = []
        · rw [if_pos hc] at h; simp at h
        · rw [if_neg hc] at h ⊢
          rw [processSteps_success_shape d.steps _ h]

/-- C8 amended witness: the amended statement at a concrete range
partition and a concrete successfully finalizing spec. -/
theorem range_partition_schema_optional_witness :
    (toRequest (dropOnlyData cexRange) emptyRequest).1 = Outcome.success
    ∧ (toRequest (dropOnlyData cexRange) emptyRequest).2.alter_schema_steps.map
        (fun pb => pb.drop_range_partition) =
        [some ({ range_bounds := encodeBounds cexRange })]
    ∧ (toRequest (dropOnlyData cexRange) emptyRequest).2.schema =
        Option.map schemaToPB (dropOnlyData cexRange).schema :=
  range_partition_schema_optional cexRange (dropOnlyData cexRange) emptyRequest
    (by decide)

end KuduAlter
